import Mathlib

/-!
Shallow embedding of `src/socket.rs` of the ezsockets repository:
the close-code model (`CloseCode`, its `From`/`TryFrom` conversions),
the message model (`CloseFrame`, `Message`), the generic sink adapter
(`SinkImpl`), the duplex capability interface (`SinkAndStream`) with its
blanket and tungstenite implementations of `next`, and `Socket::new`.
-/

namespace EzSockets

/-- The 13-variant close-code enumeration from `socket.rs` lines 10-70. -/
inductive CloseCode where
  | Normal
  | Away
  | Protocol
  | Unsupported
  | Status
  | Abnormal
  | Invalid
  | Policy
  | Size
  | Extension
  | Error
  | Restart
  | Again
  deriving DecidableEq, Repr

/-- Embedding of `impl From<CloseCode> for u16` (`socket.rs` lines 72-91).
    u16 values are represented as `Nat`; every result is below 2^16 so no
    wraparound arises. -/
def u16OfCloseCode : CloseCode → Nat
  | .Normal => 1000
  | .Away => 1001
  | .Protocol => 1002
  | .Unsupported => 1003
  | .Status => 1005
  | .Abnormal => 1006
  | .Invalid => 1007
  | .Policy => 1008
  | .Size => 1009
  | .Extension => 1010
  | .Error => 1011
  | .Restart => 1012
  | .Again => 1013

/-- Embedding of `impl TryFrom<u16> for CloseCode` (`socket.rs` lines
    93-118): the Rust `match` on the numeric literals with a fall-through
    arm `code => return Err(code)`, rendered as the equivalent chain of
    equality tests. -/
def closeCodeOfU16 (code : Nat) : Except Nat CloseCode :=
  if code = 1000 then .ok .Normal
  else if code = 1001 then .ok .Away
  else if code = 1002 then .ok .Protocol
  else if code = 1003 then .ok .Unsupported
  else if code = 1005 then .ok .Status
  else if code = 1006 then .ok .Abnormal
  else if code = 1007 then .ok .Invalid
  else if code = 1008 then .ok .Policy
  else if code = 1009 then .ok .Size
  else if code = 1010 then .ok .Extension
  else if code = 1011 then .ok .Error
  else if code = 1012 then .ok .Restart
  else if code = 1013 then .ok .Again
  else .error code

/-- The 13 reserved wire values accepted by `closeCodeOfU16` (1000-1003 and
    1005-1013); 1004 is absent, mirroring the match arms of the source. -/
def reservedCodes : List Nat :=
  [1000, 1001, 1002, 1003, 1005, 1006, 1007, 1008, 1009, 1010, 1011, 1012, 1013]

/-- `CloseFrame` struct from `socket.rs` lines 120-124. -/
structure CloseFrame where
  code : CloseCode
  reason : String

/-- The `Message` enum from `socket.rs` lines 126-133; byte payloads are
    lists of byte values. -/
inductive Message where
  | Text : String → Message
  | Binary : List Nat → Message
  | Ping : List Nat → Message
  | Pong : List Nat → Message
  | Close : Option CloseFrame → Message

/-- Rust `Poll<T>`: a poll either completes with a value or is pending. -/
inductive Poll (α : Type u) where
  | Ready : α → Poll α
  | Pending : Poll α
  deriving Repr

/-- A `futures::Sink<M, Error = ε>` as state-passing functions: each poll
    method takes the sink state `σ` and a polling context `κ` and returns
    its result together with the updated state; `start_send` takes an item
    instead of a context. -/
structure Sink (M σ κ ε : Type) where
  poll_ready : σ → κ → Poll (Except ε Unit) × σ
  start_send : σ → M → Except ε Unit × σ
  poll_flush : σ → κ → Poll (Except ε Unit) × σ
  poll_close : σ → κ → Poll (Except ε Unit) × σ

/-- The `SinkImpl<M, S>` struct from `socket.rs` lines 135-139: it holds
    the underlying sink (the `PhantomData` field has no runtime content). -/
structure SinkImpl (M σ κ ε : Type) where
  sink : Sink M σ κ ε

/-- Embedding of `impl futures::Sink<Message> for SinkImpl<M, S>`
    (`socket.rs` lines 140-162): `poll_ready` forwards to the underlying
    `poll_ready`, `start_send` converts the `Message` via `M: From<Message>`
    (the `fromMessage` argument) and forwards, `poll_flush` forwards to the
    underlying `poll_ready` (as written in the source), and `poll_close`
    forwards to the underlying `poll_close`. -/
def SinkImpl.sinkMessage (fromMessage : Message → M) (s : SinkImpl M σ κ ε) :
    Sink Message σ κ ε where
  poll_ready := fun st cx => s.sink.poll_ready st cx
  start_send := fun st item => s.sink.start_send st (fromMessage item)
  poll_flush := fun st cx => s.sink.poll_ready st cx
  poll_close := fun st cx => s.sink.poll_close st cx

/-- A `futures::Stream` of items `I` as a state-passing step: `next` returns
    `none` exactly when the stream is exhausted. -/
structure MsgStream (I σ : Type) where
  next : σ → Option I × σ

/-- The blanket `SinkAndStream` implementation's `next` (`socket.rs` lines
    177-179): it is exactly `StreamExt::next` on the underlying stream of
    `Result<Message, Error>` items. -/
def blanketNext (t : MsgStream (Except ε Message) σ) (st : σ) :
    Option (Except ε Message) × σ :=
  t.next st

/-- The per-item conversion applied by the tungstenite `next`: `Ok(message)`
    becomes `Ok(message.into())` and `Err(err)` becomes `Err(err.into())`. -/
def convertItem (msgInto : W → Message) (errInto : η → ε) :
    Except η W → Except ε Message
  | .ok m => .ok (msgInto m)
  | .error e => .error (errInto e)

/-- The tungstenite `SinkAndStream::next` (`socket.rs` lines 189-195): take
    the next item of the underlying `WebSocketStream`; if the stream is
    exhausted (the `?` on the `Option`) return `none`, otherwise convert the
    `Ok`/`Err` payload into the crate's `Message`/error types. -/
def tungsteniteNext (msgInto : W → Message) (errInto : η → ε)
    (s : MsgStream (Except η W) σ) (st : σ) : Option (Except ε Message) × σ :=
  match s.next st with
  | (none, st2) => (none, st2)
  | (some (.ok m), st2) => (some (.ok (msgInto m)), st2)
  | (some (.error e), st2) => (some (.error (errInto e)), st2)

/-- The `Socket` struct from `socket.rs` lines 203-207: a type-erased
    transport (`T` stands for the boxed `dyn SinkAndStream`), a
    `WebsocketConfig` (`C`), and an optional disconnect-notifier channel
    sender (`N`). -/
structure Socket (T C N : Type) where
  stream : T
  config : C
  disconnected : Option N

/-- `Socket::new` from `socket.rs` lines 209-217: stores the supplied
    transport and config and leaves the disconnect notifier absent. -/
def Socket.new (socket : T) (config : C) : Socket T C N :=
  { stream := socket, config := config, disconnected := none }

theorem closeCodeOfU16_not_reserved (v : Nat) (h : v ∉ reservedCodes) :
    closeCodeOfU16 v = .error v := by
  simp only [reservedCodes, List.mem_cons, List.not_mem_nil, or_false,
    not_or] at h
  obtain ⟨h0, h1, h2, h3, h5, h6, h7, h8, h9, h10, h11, h12, h13⟩ := h
  unfold closeCodeOfU16
  rw [if_neg h0, if_neg h1, if_neg h2, if_neg h3, if_neg h5, if_neg h6,
    if_neg h7, if_neg h8, if_neg h9, if_neg h10, if_neg h11, if_neg h12,
    if_neg h13]

theorem closeCodeOfU16_ok_encode (v : Nat) (c : CloseCode)
    (h : closeCodeOfU16 v = .ok c) : u16OfCloseCode c = v := by
  have hm : v ∈ reservedCodes := by
    by_contra hm
    rw [closeCodeOfU16_not_reserved v hm] at h
    exact Except.noConfusion h
  simp only [reservedCodes, List.mem_cons, List.not_mem_nil, or_false] at hm
  rcases hm with h1|h1|h1|h1|h1|h1|h1|h1|h1|h1|h1|h1|h1 <;> subst h1 <;>
    (injection h with hc; subst hc; rfl)

theorem closeCodeOfU16_total_aux (v : Nat) :
    (∃ c, closeCodeOfU16 v = .ok c) ∨ closeCodeOfU16 v = .error v := by
  by_cases hm : v ∈ reservedCodes
  · simp only [reservedCodes, List.mem_cons, List.not_mem_nil,
      or_false] at hm
    rcases hm with h | h | h | h | h | h | h | h | h | h | h | h | h <;>
      subst h <;> exact .inl ⟨_, rfl⟩
  · exact .inr (closeCodeOfU16_not_reserved v hm)

theorem closeCodeOfU16_ge_1014 (v : Nat) (h : 1014 ≤ v) :
    closeCodeOfU16 v = .error v := by
  apply closeCodeOfU16_not_reserved
  simp only [reservedCodes, List.mem_cons, List.not_mem_nil, or_false,
    not_or]
  omega

/-- C1: for every one of the 13 `CloseCode` variants `c`, converting `c` to
    its u16 wire value and decoding that value back succeeds and yields the
    original variant (`code -> u16 -> CloseCode` round-trips). -/
theorem closeCode_to_u16_roundtrip (c : CloseCode) :
    closeCodeOfU16 (u16OfCloseCode c) = .ok c := by
  cases c <;> rfl

/-- C2: for every u16 value `v` outside the 13 reserved wire codes, decoding
    fails and the error carries exactly the original numeric value `v`. -/
theorem closeCodeOfU16_unreserved_err (v : Nat) (_hv : v < 65536)
    (h : v ∉ reservedCodes) : closeCodeOfU16 v = .error v :=
  closeCodeOfU16_not_reserved v h

theorem closeCodeOfU16_unreserved_err_witness :
    (42 < 65536 ∧ 42 ∉ reservedCodes) ∧ closeCodeOfU16 42 = .error 42 :=
  ⟨⟨by decide, by decide⟩,
    closeCodeOfU16_unreserved_err 42 (by decide) (by decide)⟩

/-- C3: `CloseCode -> u16` is total (a Lean function on the whole inductive
    type) and maps each named variant to exactly the wire value of the
    spec's table. -/
theorem u16OfCloseCode_table :
    u16OfCloseCode .Normal = 1000 ∧ u16OfCloseCode .Away = 1001 ∧
    u16OfCloseCode .Protocol = 1002 ∧ u16OfCloseCode .Unsupported = 1003 ∧
    u16OfCloseCode .Status = 1005 ∧ u16OfCloseCode .Abnormal = 1006 ∧
    u16OfCloseCode .Invalid = 1007 ∧ u16OfCloseCode .Policy = 1008 ∧
    u16OfCloseCode .Size = 1009 ∧ u16OfCloseCode .Extension = 1010 ∧
    u16OfCloseCode .Error = 1011 ∧ u16OfCloseCode .Restart = 1012 ∧
    u16OfCloseCode .Again = 1013 := by
  decide

/-- C4: the wire mapping is bijective on the reserved codes: whenever
    decoding a u16 value `v` succeeds with variant `c`, encoding `c` yields
    `v` again (`u16 -> CloseCode -> u16` round-trips on every decodable
    value). -/
theorem u16_closeCode_roundtrip (v : Nat) (c : CloseCode)
    (h : closeCodeOfU16 v = .ok c) : u16OfCloseCode c = v :=
  closeCodeOfU16_ok_encode v c h

theorem u16_closeCode_roundtrip_witness :
    closeCodeOfU16 1005 = .ok .Status ∧ u16OfCloseCode .Status = 1005 :=
  ⟨rfl, u16_closeCode_roundtrip 1005 .Status rfl⟩

/-- C5: the adapter's `poll_flush` is forwarded to the underlying sink's
    `poll_ready` rather than its `poll_flush`: on every state and polling
    context it produces exactly the underlying `poll_ready` result, and
    hence coincides with the adapter's own `poll_ready`. -/
theorem sinkImpl_flush_is_ready (fromMessage : Message → M)
    (s : SinkImpl M σ κ ε) (st : σ) (cx : κ) :
    (s.sinkMessage fromMessage).poll_flush st cx = s.sink.poll_ready st cx ∧
    (s.sinkMessage fromMessage).poll_flush st cx =
      (s.sinkMessage fromMessage).poll_ready st cx :=
  ⟨rfl, rfl⟩

/-- C6: the adapter buffers nothing and forwards transparently: `start_send`
    hands the underlying sink exactly the one item obtained by converting
    the outbound `Message`, returning that call's result unchanged, and
    `poll_ready` and `poll_close` return exactly the underlying sink's
    results. -/
theorem sinkImpl_forwards (fromMessage : Message → M)
    (s : SinkImpl M σ κ ε) (st : σ) (cx : κ) (m : Message) :
    (s.sinkMessage fromMessage).start_send st m =
      s.sink.start_send st (fromMessage m) ∧
    (s.sinkMessage fromMessage).poll_ready st cx = s.sink.poll_ready st cx ∧
    (s.sinkMessage fromMessage).poll_close st cx = s.sink.poll_close st cx :=
  ⟨rfl, rfl, rfl⟩

/-- C7: the blanket implementation's `next` yields exactly the underlying
    stream's next item, and the tungstenite implementation's `next` yields
    the underlying item with its `Ok`/`Err` payload converted, returning
    `none` precisely when the underlying stream is exhausted. -/
theorem sinkAndStream_next_spec (t : MsgStream (Except ε Message) σ)
    (msgInto : W → Message) (errInto : η → ε)
    (s : MsgStream (Except η W) σ) (st : σ) :
    blanketNext t st = t.next st ∧
    tungsteniteNext msgInto errInto s st =
      ((s.next st).1.map (convertItem msgInto errInto), (s.next st).2) ∧
    ((tungsteniteNext msgInto errInto s st).1 = none ↔
      (s.next st).1 = none) := by
  have key : tungsteniteNext msgInto errInto s st =
      ((s.next st).1.map (convertItem msgInto errInto), (s.next st).2) := by
    rcases h : s.next st with ⟨i, st2⟩
    cases i with
    | none => simp [tungsteniteNext, h]
    | some r => cases r <;> simp [tungsteniteNext, convertItem, h]
  refine ⟨rfl, key, ?_⟩
  rw [key]
  rcases s.next st with ⟨i, st2⟩
  cases i <;> simp

/-- C8: both conversions are pure and deterministic: each output depends
    only on the argument, so two evaluations at equal inputs always agree,
    for the encoding and for the decoding (same `Ok` variant or same `Err`
    payload). -/
theorem closeCode_conversions_deterministic :
    (∀ c₁ c₂ : CloseCode, c₁ = c₂ →
      u16OfCloseCode c₁ = u16OfCloseCode c₂) ∧
    (∀ v₁ v₂ : Nat, v₁ = v₂ → closeCodeOfU16 v₁ = closeCodeOfU16 v₂) :=
  ⟨fun _ _ h => h ▸ rfl, fun _ _ h => h ▸ rfl⟩

theorem closeCode_conversions_deterministic_witness :
    u16OfCloseCode .Normal = u16OfCloseCode .Normal ∧
    closeCodeOfU16 1004 = closeCodeOfU16 1004 :=
  ⟨closeCode_conversions_deterministic.1 .Normal .Normal rfl,
    closeCode_conversions_deterministic.2 1004 1004 rfl⟩

/-- C9: `u16 -> CloseCode` is total over the whole u16 domain: every input
    yields either `Ok` of a variant or `Err` of the input itself; in
    particular 1004 is rejected with `Err 1004`, as are 0 and every value
    from 1014 up. -/
theorem closeCodeOfU16_total :
    (∀ v : Nat, v < 65536 →
      (∃ c, closeCodeOfU16 v = .ok c) ∨ closeCodeOfU16 v = .error v) ∧
    closeCodeOfU16 1004 = .error 1004 ∧
    closeCodeOfU16 0 = .error 0 ∧
    (∀ v : Nat, 1014 ≤ v → v < 65536 → closeCodeOfU16 v = .error v) :=
  ⟨fun v _ => closeCodeOfU16_total_aux v,
    closeCodeOfU16_not_reserved 1004 (by decide),
    closeCodeOfU16_not_reserved 0 (by decide),
    fun v hlo _ => closeCodeOfU16_ge_1014 v hlo⟩

theorem closeCodeOfU16_total_witness :
    (1234 < 65536 ∧
      ((∃ c, closeCodeOfU16 1234 = .ok c) ∨
        closeCodeOfU16 1234 = .error 1234)) ∧
    (1014 ≤ 2026 ∧ 2026 < 65536 ∧ closeCodeOfU16 2026 = .error 2026) :=
  ⟨⟨by decide, closeCodeOfU16_total.1 1234 (by decide)⟩,
    ⟨by decide, by decide,
      closeCodeOfU16_total.2.2.2 2026 (by decide) (by decide)⟩⟩

/-- C10: `Socket::new` stores exactly the supplied transport in `stream`,
    exactly the supplied configuration in `config`, and installs no
    disconnect notifier (`disconnected` is `none`). -/
theorem socket_new_fields (s : T) (c : C) :
    (Socket.new s c : Socket T C N).stream = s ∧
    (Socket.new s c : Socket T C N).config = c ∧
    (Socket.new s c : Socket T C N).disconnected = none :=
  ⟨rfl, rfl, rfl⟩

end EzSockets
